import Mathlib

/-!
# Verification of the osd-launcher process-supervision core

Shallow embedding of the launcher's process lifecycle and readiness-supervision
engine, translated from the JavaScript source:

* the health-poll supervision loop shared verbatim by `runOpenSearch`
  (lib/opensearch.js) and `runDashboards` (lib/dashboards.js);
* the shutdown registry `killSubprocesses` / `isProcessAlive` (lib/subprocess.js);
* the configuration rewriters `configureOpenSearch` / `configureDashboards`
  built on `_deleteFromFile` / `_appendToFile` (lib/utils.js);
* the atomic downloader `_download` (lib/utils.js);
* the health probes `checkOpenSearchHealth` / `checkDashboardsHealth`;
* plugin source resolution `getSource` / `getOfficialSource` (lib/dashboards.js);
* version classification `isVersion` / `fullVersion` and the
  `prepareOpenSearch` guard.

Time is modelled in milliseconds relative to the loop's `timerStart`;
cooperative-asynchrony effects (stream piping, registry pushes, signals) are
made explicit state.
-/

namespace OsdLauncher

/-! ## Supervision loop (runOpenSearch / runDashboards)

The two loops are textually identical:

```js
const timerStart = Date.now();
do {
  const tryStart = Date.now();
  if (await checkHealth(opts)) {
    running = true;
    child.stdout.unpipe(process.stdout);
    child.stderr.unpipe(process.stderr);
    recordProcess(child);
    return child;
  }
  if (closed || Date.now() - timerStart > timeoutSeconds * 1e3) {
    child.kill('SIGTERM');
    child.unref();
    return;
  }
  await setTimeout(5000 - Date.now() + tryStart);
} while (true);
```

`PollEnv` is the loop's environment: the truthiness of probe number `i`
(`health i`), the wall-clock duration of probe `i` in ms (`healthDur i`), and
the instant, relative to `timerStart`, at which the child's `close` event
fires, if ever (`closedAt`).  The `closed` flag observed by the loop at time
`t` is `closedB env t`.  A negative argument to Node's timers/promises
`setTimeout` fires at once, so the next iteration starts at
`tryStart + max (healthDur i) 5000`. -/

structure ChildState where
  pid : Nat
  pipedOut : Bool
  pipedErr : Bool
  sigTermed : Bool
  unrefd : Bool
  running : Bool
deriving DecidableEq

/-- Child as freshly spawned: stdout/stderr piped to the terminal, no signal
sent, not unref'd, not yet running. -/
def initialChild (pid : Nat) : ChildState :=
  { pid := pid, pipedOut := true, pipedErr := true,
    sigTermed := false, unrefd := false, running := false }

/-- Effect of the loop's success branch on the child: `running = true`,
both streams unpiped. -/
def ChildState.onSuccess (c : ChildState) : ChildState :=
  { c with pipedOut := false, pipedErr := false, running := true }

/-- Effect of the loop's failure branch on the child:
`child.kill('SIGTERM'); child.unref()`. -/
def ChildState.onFailure (c : ChildState) : ChildState :=
  { c with sigTermed := true, unrefd := true }

structure PollEnv where
  health : Nat → Bool
  healthDur : Nat → Nat
  closedAt : Option Nat

/-- The `closed` flag as observed at (relative) time `t`. -/
def closedB (env : PollEnv) (t : Nat) : Bool :=
  match env.closedAt with
  | none => false
  | some c => decide (c ≤ t)

/-- The child handle together with the process-wide shutdown registry
(`subprocesses` in lib/subprocess.js), listed as recorded pids. -/
structure PollState where
  child : ChildState
  registry : List Nat
deriving DecidableEq

inductive PollOutcome where
  /-- The probe of iteration `iter` returned a truthy value at time `time`:
  the loop returns the handle after unpiping and registering it. -/
  | healthy (iter : Nat) (time : Nat) (st : PollState)
  /-- The loop returned `undefined` at time `time` on iteration `iter`;
  `closedFlag` is the value of the `closed` variable at that instant
  (`true`: the close event had fired — StartupFailed; `false`: the elapsed
  time exceeded the budget — StartupTimeout). -/
  | failed (closedFlag : Bool) (iter : Nat) (time : Nat) (st : PollState)
  /-- Fuel exhausted (the JS loop is unbounded; fuel only limits the model). -/
  | fuelOut (st : PollState)
deriving DecidableEq

/-- One-for-one embedding of the supervision loop shared by `runOpenSearch`
(lib/opensearch.js lines 285-305) and `runDashboards` (lib/dashboards.js
lines 699-718).  `timeoutMs` is `timeoutSeconds * 1e3`; `tryStart` is the
current iteration's start relative to `timerStart`. -/
def pollLoop (env : PollEnv) (timeoutMs : Nat) :
    Nat → Nat → Nat → PollState → PollOutcome
  | 0, _iter, _tryStart, st => .fuelOut st
  | fuel + 1, iter, tryStart, st =>
    let now := tryStart + env.healthDur iter
    if env.health iter then
      .healthy iter now ⟨st.child.onSuccess, st.registry ++ [st.child.pid]⟩
    else if closedB env now || decide (now > timeoutMs) then
      .failed (closedB env now) iter now ⟨st.child.onFailure, st.registry⟩
    else
      pollLoop env timeoutMs fuel (iter + 1) (tryStart + max (env.healthDur iter) 5000) st

/-- Entry to the loop as `runOpenSearch`/`runDashboards` reach it: the first
iteration starts at `timerStart` itself, with a freshly spawned, piped child
and the registry as the supervisor found it. -/
def runServiceLoop (env : PollEnv) (timeoutSeconds : Nat) (fuel : Nat)
    (pid : Nat) (registry : List Nat) : PollOutcome :=
  pollLoop env (timeoutSeconds * 1000) fuel 0 0 ⟨initialChild pid, registry⟩

/-- Number of occurrences of `a` in `l`. -/
def countOcc {α : Type} [BEq α] (a : α) (l : List α) : Nat :=
  (l.filter (fun x => x == a)).length

/-- Health-check stub that is falsy twice and then truthy, instantaneous,
child never closes. -/
def stubEnv : PollEnv :=
  { health := fun i => decide (2 ≤ i), healthDur := fun _ => 0, closedAt := none }

/-- Always-falsy, instantaneous health check; child never closes. -/
def neverHealthyEnv : PollEnv :=
  { health := fun _ => false, healthDur := fun _ => 0, closedAt := none }

/-! ## Shutdown registry (lib/subprocess.js)

```js
function isProcessAlive(pid) {
  if (!pid) return true;
  try { process.kill(pid, 0); return true; }
  catch (err) { return err.code === 'EPERM'; }
}

export const killSubprocesses = () => {
  for (const proc of subprocesses) {
    if (!proc) continue;
    proc.unref?.();
    try {
      process.kill(-proc.pid, 'SIGTERM');
      setTimeout(() => {
        if (isProcessAlive(proc?.pid)) process.kill(-proc.pid, 'SIGKILL');
      }, 5000);
    } catch (ex) {
      if (ex.code !== 'ESRCH') console.error(ex);
    }
  }
};
```

The kernel's response to a `process.kill` syscall is an oracle `OS.kill`:
success, or an exception carrying an errno code string. -/

inductive Signal where
  | term
  | kill
  | zero
deriving DecidableEq

inductive KillOutcome where
  | ok
  | err (code : String)
deriving DecidableEq

/-- The operating system as seen through `process.kill pid signal`;
negative pids address the process group. -/
structure OS where
  kill : Int → Signal → KillOutcome

/-- A registered child handle (a falsy entry is modelled as `Option.none`
at the registry level). -/
structure Proc where
  pid : Nat
deriving DecidableEq

/-- Embedding of `isProcessAlive` of lib/subprocess.js: a zero-signal probe; a falsy pid
counts as alive, a successful probe counts as alive, and an `EPERM` failure
also counts as alive (the pid exists but belongs to someone else). -/
def isProcessAlive (os : OS) (pid : Nat) : Bool :=
  if pid = 0 then true
  else
    match os.kill ((pid : Int)) Signal.zero with
    | .ok => true
    | .err c => c == "EPERM"

/-- The deferred action scheduled 5 seconds after a successful group SIGTERM:
`if (isProcessAlive(proc?.pid)) process.kill(-proc.pid, 'SIGKILL')`.
Returns the kill syscalls it dispatches, evaluated against the OS state at
firing time. -/
def deferredKill (os : OS) (pid : Nat) : List (Int × Signal) :=
  if isProcessAlive os pid then [(-((pid : Int)), Signal.kill)] else []

/-- Observable effects of one `killSubprocesses` invocation: `unrefs` are the
handles unref'd, `attempts` the synchronous kill syscalls issued in order,
`timers` the pids whose deferred SIGKILL was scheduled, `logged` the error
codes printed by the catch (everything except `ESRCH`). -/
structure ShutdownEffects where
  unrefs : List Nat
  attempts : List (Int × Signal)
  timers : List Nat
  logged : List String
deriving DecidableEq

def ShutdownEffects.append (a b : ShutdownEffects) : ShutdownEffects :=
  ⟨a.unrefs ++ b.unrefs, a.attempts ++ b.attempts,
   a.timers ++ b.timers, a.logged ++ b.logged⟩

/-- The loop body of `killSubprocesses` for one non-falsy entry: unref, then
try a group SIGTERM; on success schedule the deferred SIGKILL; on failure
log the code unless it is `ESRCH`.  The catch swallows every exception, so
the body is total. -/
def killOne (os : OS) (p : Proc) : ShutdownEffects :=
  match os.kill (-((p.pid : Int))) Signal.term with
  | .ok => ⟨[p.pid], [(-((p.pid : Int)), Signal.term)], [p.pid], []⟩
  | .err c =>
    ⟨[p.pid], [(-((p.pid : Int)), Signal.term)], [],
     if c == "ESRCH" then [] else [c]⟩

/-- Embedding of `killSubprocesses` of lib/subprocess.js over the registry contents. -/
def killSubprocesses (os : OS) : List (Option Proc) → ShutdownEffects
  | [] => ⟨[], [], [], []⟩
  | none :: rest => killSubprocesses os rest
  | some p :: rest => (killOne os p).append (killSubprocesses os rest)

/-! ## Atomic download (`_download`, lib/utils.js)

Each attempt first removes the `.temp` sibling, then issues the GET.  A
2xx/300 response pipes the body into the `.temp` file; only the write
stream's `finish` event removes the destination and renames `.temp` over it.
A 3xx (above 300) response with a `Location` header recurses on the new URL
with the same destination; every other outcome rejects.  `FS` tracks the
destination cache file and the `.temp` sibling; `NetOutcome` is the response
to one attempt, consumed left to right along the redirect chain. -/

structure FS where
  dest : Option String
  temp : Option String
deriving DecidableEq

inductive WriteOutcome where
  /-- The stream fully finished; `body` is the complete content written. -/
  | finished (body : String)
  /-- The write stream errored after `written` bytes. -/
  | errored (written : String) (msg : String)
deriving DecidableEq

inductive NetOutcome where
  | connError (msg : String)
  | response (code : Nat) (location : Option String) (write : WriteOutcome)
deriving DecidableEq

/-- Embedding of `_download url dest` of lib/utils.js, one list entry per attempt in the
redirect chain (an empty list models a never-settling request: no further
file-system activity after the initial `.temp` removal). -/
def download : List NetOutcome → FS → FS × Except String Unit
  | [], fs => ({ fs with temp := none }, .error "stalled")
  | o :: rest, fs =>
    let fs1 : FS := { fs with temp := none }
    match o with
    | .connError m => (fs1, .error m)
    | .response code loc w =>
      if code < 200 || 400 ≤ code then
        (fs1, .error ("Download failed with " ++ toString code))
      else if 300 < code then
        match loc with
        | some _ => download rest fs1
        | none => (fs1, .error ("Download failed with " ++ toString code))
      else
        match w with
        | .finished body => ({ dest := some body, temp := none }, .ok ())
        | .errored written m => ({ fs1 with temp := some written }, .error m)

/-! ## Configuration rewriting (`configureOpenSearch`, `configureDashboards`)

`_deleteFromFile` (lib/utils.js) keeps exactly the lines that contain none of
the given keys as a substring; `_appendToFile` appends
`'\n' + texts.join('\n') + '\n'`, which after a line-terminated file inserts
one blank line followed by the new key lines.  Files are modelled as their
line lists. -/

/-- Whether `bs` starts with `as`. -/
def listPrefixOf : List Char → List Char → Bool
  | [], _ => true
  | _ :: _, [] => false
  | a :: as, b :: bs => a == b && listPrefixOf as bs

/-- Whether `needle` occurs contiguously inside `hay`. -/
def listInfixOf (needle : List Char) : List Char → Bool
  | [] => listPrefixOf needle []
  | h :: t => listPrefixOf needle (h :: t) || listInfixOf needle t

/-- JavaScript `line.includes(needle)`: substring containment. -/
def includes (line needle : String) : Bool :=
  listInfixOf needle.data line.data

/-- JavaScript `s.split(sep)` for a single-character separator. -/
def splitChar (sep : Char) : List Char → List (List Char)
  | [] => [[]]
  | x :: xs =>
    let r := splitChar sep xs
    if x == sep then [] :: r
    else
      match r with
      | [] => [[x]]
      | h :: t => (x :: h) :: t

def jsSplit (sep : Char) (s : String) : List String :=
  (splitChar sep s.data).map String.mk

/-- JavaScript `s.trim()`. -/
def jsTrim (s : String) : String :=
  String.mk
    ((((s.data.dropWhile Char.isWhitespace).reverse).dropWhile Char.isWhitespace).reverse)

def lowerData (s : String) : List Char :=
  s.data.map Char.toLower

/-- The pure line transform of `_deleteFromFile`. -/
def deleteLines (keys : List String) (lines : List String) : List String :=
  lines.filter (fun line => !(keys.any (fun k => includes line k)))

/-- The line transform of `_appendToFile` on a line-terminated file. -/
def appendLines (lines newLines : List String) : List String :=
  lines ++ "" :: newLines

/-- A single-quote character, used by the `admin_dn`/`nodes_dn` YAML lines. -/
def sq : String := String.singleton (Char.ofNat 39)

/-- The options `configureDashboards` (lib/dashboards.js lines 591-636)
reads; `security` is `opts.security === true`. -/
structure DOpts where
  security : Bool
  dashboardsHost : String
  dashboardsPort : String
  opensearchHost : String
  opensearchPort : String
  username : String
  password : String

/-- The `linesToDelete` list of `configureDashboards`. -/
def dashboardsLinesToDelete (o : DOpts) : List String :=
  ["server.host",
   "server.port",
   "opensearch.ssl.verificationMode",
   "opensearch.ignoreVersionMismatch",
   "savedObjects.maxImportPayloadBytes",
   "server.maxPayloadBytes",
   "logging.json",
   "data.search.aggs.shardDelay.enabled",
   "csp.warnLegacyBrowsers",
   "opensearch.hosts",
   "opensearch.username",
   "opensearch.password"]
  ++ (if o.security = true then [] else ["opensearch_security."])

/-- The `configParams` list of `configureDashboards`. -/
def dashboardsConfigParams (o : DOpts) : List String :=
  ["server.host: " ++ o.dashboardsHost,
   "server.port: " ++ o.dashboardsPort,
   "opensearch.ssl.verificationMode: none",
   "opensearch.ignoreVersionMismatch: true",
   "savedObjects.maxImportPayloadBytes: 10485760",
   "server.maxPayloadBytes: 1759977",
   "logging.json: false",
   "data.search.aggs.shardDelay.enabled: true",
   "csp.warnLegacyBrowsers: false"]
  ++ (if o.security = true then
        ["opensearch.hosts: [\"https://" ++ o.opensearchHost ++ ":" ++ o.opensearchPort ++ "\"]",
         "opensearch.username: \"" ++ o.username ++ "\"",
         "opensearch.password: \"" ++ o.password ++ "\""]
      else
        ["opensearch.hosts: [\"http://" ++ o.opensearchHost ++ ":" ++ o.opensearchPort ++ "\"]"])

/-- The `opensearch_dashboards.yml` transform performed by
`configureDashboards`: delete then append. -/
def configureDashboardsFile (o : DOpts) (lines : List String) : List String :=
  appendLines (deleteLines (dashboardsLinesToDelete o) lines) (dashboardsConfigParams o)

/-- Relative certificate paths and subjects produced by
`configureOpenSearchCerts`. -/
structure Certs where
  rooCACert : String
  adminCertSubject : String
  nodeCert : String
  nodeKey : String
  nodeCertSubject : String

/-- Inputs of `configureOpenSearch` (lib/opensearch.js lines 101-207):
option values plus the `existsSync` plugin-directory probes guarding each
conditional parameter block. -/
structure OSOpts where
  opensearchHost : String
  opensearchPort : String
  security : Bool
  securityPluginPresent : Bool
  indexManagementPresent : Bool
  alertingPresent : Bool
  sqlPresent : Bool
  tmpdir : String

/-- The keys `configureOpenSearch` deletes from `opensearch.yml`. -/
def opensearchLinesToDelete : List String :=
  ["network.host", "discovery.type", "cluster.routing.allocation.disk.threshold_enabled"]

/-- The `configParams` list of `configureOpenSearch` in push order. -/
def opensearchConfigParams (o : OSOpts) (c : Certs) : List String :=
  ["network.host: " ++ o.opensearchHost,
   "http.port: " ++ o.opensearchPort,
   "discovery.type: single-node",
   "cluster.routing.allocation.disk.threshold_enabled: false"]
  ++ (if o.securityPluginPresent then
        ["plugins.security.ssl.transport.pemcert_filepath: " ++ c.nodeCert,
         "plugins.security.ssl.transport.pemkey_filepath: " ++ c.nodeKey,
         "plugins.security.ssl.transport.pemtrustedcas_filepath: " ++ c.rooCACert,
         "plugins.security.ssl.transport.enforce_hostname_verification: false",
         "plugins.security.ssl.http.enabled: true",
         "plugins.security.ssl.http.pemcert_filepath: " ++ c.nodeCert,
         "plugins.security.ssl.http.pemkey_filepath: " ++ c.nodeKey,
         "plugins.security.ssl.http.pemtrustedcas_filepath: " ++ c.rooCACert,
         "plugins.security.allow_default_init_securityindex: true",
         "plugins.security.authcz.admin_dn:",
         "  - " ++ sq ++ c.adminCertSubject ++ sq,
         "plugins.security.nodes_dn:",
         "  - " ++ sq ++ c.nodeCertSubject ++ sq,
         "plugins.security.audit.type: internal_opensearch",
         "plugins.security.enable_snapshot_restore_privilege: true",
         "plugins.security.check_snapshot_restore_write_privileges: true",
         "plugins.security.restapi.roles_enabled: [\"all_access\", \"security_rest_api_access\"]"]
        ++ (if o.security = true then [] else ["plugins.security.disabled: true"])
      else [])
  ++ (if o.indexManagementPresent then ["path.repo: [" ++ o.tmpdir ++ "]"] else [])
  ++ (if o.alertingPresent then
        ["plugins.destination.host.deny_list: [\"10.0.0.0/8\", \"127.0.0.1\"]"]
      else [])
  ++ (if o.sqlPresent then ["script.context.field.max_compilations_rate: 1000/1m"] else [])

/-- The `opensearch.yml` transform performed by `configureOpenSearch`:
delete then append.  (Side writes to `internal_users.yml`, `config.yml` and
the performance-analyzer properties file touch other files and are outside
this transform.) -/
def configureOpenSearchFile (o : OSOpts) (c : Certs) (lines : List String) : List String :=
  appendLines (deleteLines opensearchLinesToDelete lines) (opensearchConfigParams o c)

/-! ## Health probes (`checkOpenSearchHealth`, `checkDashboardsHealth`)

A probe issues one GET, modelled through an oracle `net : HttpRequest →
HttpResult`.  The body is abstracted to the two JSON fields the probes read:
`json?.status` (`clusterStatus`) and `json?.status?.overall?.state`
(`overallState`); `body = none` is an unparseable body.  A probe's result is
`Option Bool`: `none` is JavaScript `undefined` (an exception reached the
surrounding `try`/`catch`, or an early plain `return`). -/

structure HttpRequest where
  scheme : String
  host : String
  port : String
  urlPath : String
  auth : Bool
  rejectUnauthorized : Bool
deriving DecidableEq

structure HealthBody where
  clusterStatus : Option String
  overallState : Option String
deriving DecidableEq

inductive HttpResult where
  | connErr
  | resp (status : Nat) (contentType : Option String) (body : Option HealthBody)

/-- Options read by the health probes. -/
structure HOpts where
  security : Bool
  dashboardsHost : String
  dashboardsPort : String
  opensearchHost : String
  opensearchPort : String
  username : String
  password : String

/-- The request `checkDashboardsHealth` (lib/dashboards.js lines 642-663)
issues: `fetch('http://host:port/api/status')`, the scheme fixed to plain
HTTP; security mode only adds the basic-auth header. -/
def dashboardsHealthRequest (o : HOpts) : HttpRequest :=
  { scheme := "http", host := o.dashboardsHost, port := o.dashboardsPort,
    urlPath := "/api/status", auth := o.security, rejectUnauthorized := true }

/-- The request `checkOpenSearchHealth` (lib/opensearch.js lines 212-259)
issues: HTTPS with a `rejectUnauthorized: false` agent and basic auth when
security is on, plain `fetch` over HTTP otherwise. -/
def opensearchHealthRequest (o : HOpts) : HttpRequest :=
  if o.security then
    { scheme := "https", host := o.opensearchHost, port := o.opensearchPort,
      urlPath := "/_cluster/health", auth := true, rejectUnauthorized := false }
  else
    { scheme := "http", host := o.opensearchHost, port := o.opensearchPort,
      urlPath := "/_cluster/health", auth := false, rejectUnauthorized := true }

/-- Embedding of `checkDashboardsHealth`: no status-code check (`fetch` does not throw on
non-2xx); a missing content-type throws inside the `try` (undefined), a
non-JSON content-type returns early (undefined), an unparseable body throws
(undefined); otherwise the result is `state === 'green'`. -/
def checkDashboardsHealth (o : HOpts) (net : HttpRequest → HttpResult) : Option Bool :=
  match net (dashboardsHealthRequest o) with
  | .connErr => none
  | .resp _status ct body =>
    match ct with
    | none => none
    | some c =>
      if includes c "application/json" then
        match body with
        | none => none
        | some b => some (b.overallState == some "green")
      else none

/-- The judgement `['green', 'yellow'].includes(status)`. -/
def clusterHealthy (b : HealthBody) : Bool :=
  b.clusterStatus == some "green" || b.clusterStatus == some "yellow"

/-- Embedding of `checkOpenSearchHealth`: on the secure path any non-200 status rejects
(undefined); on the plain path the status code is never examined; both paths
then demand a JSON content-type and a parseable body and judge
`status ∈ {'green', 'yellow'}`. -/
def checkOpenSearchHealth (o : HOpts) (net : HttpRequest → HttpResult) : Option Bool :=
  if o.security then
    match net (opensearchHealthRequest o) with
    | .connErr => none
    | .resp status ct body =>
      if status == 200 then
        match ct with
        | none => none
        | some c =>
          if includes c "application/json" then
            match body with
            | none => none
            | some b => some (clusterHealthy b)
          else none
      else none
  else
    match net (opensearchHealthRequest o) with
    | .connErr => none
    | .resp _status ct body =>
      match ct with
      | none => none
      | some c =>
        if includes c "application/json" then
          match body with
          | none => none
          | some b => some (clusterHealthy b)
        else none

/-! ## Plugin source resolution (`getSource`, `getOfficialSource`)

lib/dashboards.js lines 359-388.  The per-project official sources live in
the repository's `config/` data files (keyed by slug, each `src` a complete
`github:user/repo/branch` reference), so the table is a parameter. -/

structure SourceRef where
  user : String
  repo : String
  branch : String
deriving DecidableEq

structure Project where
  slug : String
  src : String
deriving DecidableEq

def lookupProject (ps : List Project) (slug : String) : Option Project :=
  ps.find? (fun p => p.slug == slug)

/-- The strip `replace(/^github:(\/\/)?/i, '')` applied to a requested source. -/
def stripGithubAny (s : String) : String :=
  if listPrefixOf "github://".data (lowerData s) then String.mk (s.data.drop 9)
  else if listPrefixOf "github:".data (lowerData s) then String.mk (s.data.drop 7)
  else s

/-- The strip `replace(/^github:/i, '')` applied to an official `src`. -/
def stripGithubColon (s : String) : String :=
  if listPrefixOf "github:".data (lowerData s) then String.mk (s.data.drop 7) else s

/-- JavaScript truthiness of `parts[i]` after array destructuring: the
element exists and is non-empty. -/
def partTruthy (parts : List String) (i : Nat) : Bool :=
  match parts.get? i with
  | some s => s != ""
  | none => false

/-- Embedding of `getOfficialSource(slug, requestedBranch)`: splits the project's `src`
and keeps `requestedBranch || branch` (a missing part is JavaScript
`undefined`, rendered `""`). -/
def getOfficialSource (ps : List Project) (slug : String)
    (requestedBranch : Option String) : Except String SourceRef :=
  match lookupProject ps slug with
  | none => .error ("Unknown key: " ++ slug)
  | some p =>
    let parts := jsSplit '/' (stripGithubColon p.src)
    let branch := parts.getD 2 ""
    .ok { user := parts.getD 0 "", repo := parts.getD 1 "",
          branch := match requestedBranch with
                    | some b => if b == "" then branch else b
                    | none => branch }

/-- Embedding of `getSource(slug, requestedSource, osdBranch)`.  Note the single-segment
branch: `user && repo === undefined && branch === undefined` returns
`getOfficialSource(slug, branch)` with `branch` being `undefined` there, so
the requested owner is discarded in favour of the official source. -/
def getSource (ps : List Project) (slug : String) (requestedSource : Option String)
    (osdBranch : Option String) : Except String SourceRef :=
  match lookupProject ps slug with
  | none => .error ("Unknown key: " ++ slug)
  | some _ =>
    let fallback :=
      match osdBranch with
      | some b => if b == "" then getOfficialSource ps slug none
                  else getOfficialSource ps slug (some b)
      | none => getOfficialSource ps slug none
    match requestedSource.map (fun r => stripGithubAny (jsTrim r)) with
    | some s =>
      if s != "" then
        let parts := jsSplit '/' s
        if partTruthy parts 0 && partTruthy parts 1 && partTruthy parts 2 then
          .ok { user := parts.getD 0 "", repo := parts.getD 1 "", branch := parts.getD 2 "" }
        else if partTruthy parts 0 && (parts.get? 1).isNone && (parts.get? 2).isNone then
          getOfficialSource ps slug none
        else
          .error ("Failed to find a source for " ++ slug)
      else fallback
    | none => fallback

/-! ## Version classification and the OpenSearch provisioning guard -/

/-- Embedding of `isVersion` (lib/utils.js): `/^\d+\.\d+\.\d+$/.test(value)`. -/
def isDigits (l : List Char) : Bool :=
  !l.isEmpty && l.all Char.isDigit

def isVersion (s : String) : Bool :=
  match splitChar '.' s.data with
  | [a, b, c] => isDigits a && isDigits b && isDigits c
  | _ => false

/-- Result of `isVersion` applied to a possibly-absent value (`regex.test(undefined)`
coerces to the string "undefined" and fails). -/
def isVersionOpt : Option String → Bool
  | none => false
  | some v => isVersion v

/-- The `--opensearch-version` argument parser `fullVersion`
(cli.js lines 40-45): accepts exactly complete three-part versions, throws
`InvalidArgumentError` otherwise. -/
def fullVersion (input : String) : Except String String :=
  let value := jsTrim input
  if isVersion value then .ok value
  else .error "The value needs to be a complete version (e.g. 2.15.0)."

inductive PrepAction where
  | download (version : String)
  | unarchive
  | configure
deriving DecidableEq

/-- Embedding of `prepareOpenSearch` (lib/opensearch.js lines 319-342) as its result plus
the ordered collaborator calls it performs.  Without a full `\d+.\d+.\d+`
version it returns `undefined` immediately, touching nothing; otherwise it
downloads, unarchives (re-throwing a corruption hint on failure) and
configures. -/
def prepareOpenSearch (unarchiveOk : Bool) (opensearchVersion : Option String)
    (destination : String) : Except String (Option String) × List PrepAction :=
  match opensearchVersion with
  | none => (.ok none, [])
  | some v =>
    if isVersion v then
      if unarchiveOk then
        (.ok (some (destination ++ "/OpenSearch-v" ++ v)),
         [.download v, .unarchive, .configure])
      else
        (.error "The downloaded OpenSearch artifact appears to have been corrupted.",
         [.download v, .unarchive])
    else (.ok none, [])

/-! ## Concrete inputs used by counterexamples and witnesses -/

/-- Default `configureOpenSearch` inputs: default host/port, security off,
no plugin directories present. -/
def osOptsPlain : OSOpts := ⟨"127.0.0.1", "9200", false, false, false, false, false, "/tmp"⟩

def certs0 : Certs := ⟨"", "", "", "", ""⟩

/-- Default `configureDashboards` inputs (CLI defaults, security off). -/
def dOpts0 : DOpts := ⟨false, "0.0.0.0", "5601", "127.0.0.1", "9200", "admin", ""⟩

/-- Probe options with security enabled. -/
def secureHOpts : HOpts := ⟨true, "0.0.0.0", "5601", "127.0.0.1", "9200", "admin", "pw"⟩

/-- A responsive endpoint: 200, JSON, fully green body. -/
def greenNet : HttpRequest → HttpResult :=
  fun _ => .resp 200 (some "application/json") (some ⟨some "green", some "green"⟩)

/-- A one-project official-source table. -/
def testProjects : List Project :=
  [⟨"maps", "github:opensearch-project/maps-dashboards/main"⟩]

end OsdLauncher

namespace OsdLauncher

/-! # Theorems -/

/-! ## Supervision loop -/

/-- C1: whenever a probe iteration of the supervision loop returns a truthy
value, the loop exits successfully on that very iteration — both output
streams are unpiped, the handle is appended to the shutdown registry (hence
registered exactly once more than before) and the handle is returned; and
concretely, with a health-check stub that is falsy twice then truthy, the
loop succeeds on the third probe (iteration 2) with the returned handle
present in the registry exactly once. -/
theorem pollLoop_health_success :
    (∀ env timeoutMs fuel iter tryStart st, env.health iter = true →
      pollLoop env timeoutMs (fuel + 1) iter tryStart st =
        .healthy iter (tryStart + env.healthDur iter)
          ⟨st.child.onSuccess, st.registry ++ [st.child.pid]⟩)
    ∧ runServiceLoop stubEnv 180 10 7 [] =
        .healthy 2 10000 ⟨(initialChild 7).onSuccess, [7]⟩
    ∧ countOcc 7 [7] = 1 := by
  refine ⟨?_, by rfl, by rfl⟩
  intro env timeoutMs fuel iter tryStart st h
  simp [pollLoop, h]

theorem pollLoop_health_success_witness :
    pollLoop stubEnv 999 5 2 100 ⟨initialChild 4, [9]⟩ =
      .healthy 2 100 ⟨(initialChild 4).onSuccess, [9, 4]⟩ :=
  pollLoop_health_success.1 stubEnv 999 4 2 100 ⟨initialChild 4, [9]⟩ (by rfl)

/-- With an always-falsy instantaneous probe and no close event, enough fuel
makes the loop fail with the timeout flag at a time strictly inside
`(timeoutMs, timeoutMs + 5000]`. -/
theorem pollLoop_allFalse_timesOut (env : PollEnv) (timeoutMs : Nat)
    (hh : ∀ i, env.health i = false) (hd : ∀ i, env.healthDur i = 0)
    (hc : env.closedAt = none) :
    ∀ fuel iter tryStart st, tryStart ≤ timeoutMs + 5000 →
      timeoutMs + 5000 < tryStart + 5000 * fuel →
      ∃ i t, pollLoop env timeoutMs fuel iter tryStart st =
          .failed false i t ⟨st.child.onFailure, st.registry⟩ ∧
        timeoutMs < t ∧ t ≤ timeoutMs + 5000 := by
  intro fuel
  induction fuel with
  | zero => intro iter s st h1 h2; omega
  | succ fuel ih =>
    intro iter s st h1 h2
    by_cases hs : timeoutMs < s
    · refine ⟨iter, s, ?_, hs, h1⟩
      simp [pollLoop, hh, hd, closedB, hc, hs]
    · push_neg at hs
      have h3 := ih (iter + 1) (s + 5000) st (by omega) (by omega)
      simpa [pollLoop, hh, hd, closedB, hc, Nat.not_lt.2 hs] using h3

/-- C2: with a `healthCheck` that is never truthy (and a child that never
closes), the loop returns the timeout failure no sooner than `N` seconds and
no later than `N + 5` seconds after `timerStart`; and in general a falsy
probe that neither closes nor exhausts the budget makes the next iteration
start exactly 5 seconds after the previous attempt's start (the probe's
latency, up to the 5-second cadence, is subtracted from the wait). -/
theorem pollLoop_timeout_bounds :
    (∀ env N pid registry,
      (∀ i, env.health i = false) → (∀ i, env.healthDur i = 0) →
      env.closedAt = none →
      ∃ i t, runServiceLoop env N (N + 2) pid registry =
          .failed false i t ⟨(initialChild pid).onFailure, registry⟩ ∧
        N * 1000 < t ∧ t ≤ N * 1000 + 5000)
    ∧ (∀ env timeoutMs fuel iter tryStart st,
        env.health iter = false →
        closedB env (tryStart + env.healthDur iter) = false →
        tryStart + env.healthDur iter ≤ timeoutMs →
        env.healthDur iter ≤ 5000 →
        pollLoop env timeoutMs (fuel + 1) iter tryStart st =
          pollLoop env timeoutMs fuel (iter + 1) (tryStart + 5000) st) := by
  constructor
  · intro env N pid registry hh hd hc
    exact pollLoop_allFalse_timesOut env (N * 1000) hh hd hc (N + 2) 0 0
      ⟨initialChild pid, registry⟩ (by omega) (by omega)
  · intro env timeoutMs fuel iter tryStart st h1 h2 h3 h4
    have hmax : max (env.healthDur iter) 5000 = 5000 := Nat.max_eq_right h4
    simp [pollLoop, h1, h2, Nat.not_lt.2 h3, hmax]

theorem pollLoop_timeout_bounds_witness :
    ∃ i t, runServiceLoop neverHealthyEnv 7 9 3 [] =
        .failed false i t ⟨(initialChild 3).onFailure, []⟩ ∧
      7 * 1000 < t ∧ t ≤ 7 * 1000 + 5000 :=
  pollLoop_timeout_bounds.1 neverHealthyEnv 7 3 [] (fun _ => rfl) (fun _ => rfl) rfl

/-- C3: every failure exit of the loop — early close or timeout — leaves the
child SIGTERMed and unref'd and the shutdown registry exactly as it was (the
handle is never registered); and a close event observed at a falsy probe
makes the loop fail on that very iteration, at the probe's own completion
time, with no further waiting and regardless of remaining timeout budget. -/
theorem pollLoop_failure_effects :
    (∀ env timeoutMs fuel iter tryStart st b i t st',
      pollLoop env timeoutMs fuel iter tryStart st = .failed b i t st' →
      st' = ⟨st.child.onFailure, st.registry⟩)
    ∧ (∀ env timeoutMs fuel iter tryStart st,
        env.health iter = false →
        closedB env (tryStart + env.healthDur iter) = true →
        pollLoop env timeoutMs (fuel + 1) iter tryStart st =
          .failed true iter (tryStart + env.healthDur iter)
            ⟨st.child.onFailure, st.registry⟩) := by
  constructor
  · intro env timeoutMs fuel
    induction fuel with
    | zero => intro iter s st b i t st' h; simp [pollLoop] at h
    | succ fuel ih =>
      intro iter s st b i t st' h
      simp only [pollLoop] at h
      split at h
      · cases h
      · split at h
        · injection h with h1 h2 h3 h4
          exact h4.symm
        · exact ih _ _ _ _ _ _ _ h
  · intro env timeoutMs fuel iter tryStart st h1 h2
    simp [pollLoop, h1, h2]

theorem pollLoop_failure_effects_witness :
    pollLoop ⟨fun _ => false, fun _ => 0, some 0⟩ 180000 3 0 0 ⟨initialChild 8, [2]⟩ =
      .failed true 0 0 ⟨(initialChild 8).onFailure, [2]⟩ :=
  pollLoop_failure_effects.2 ⟨fun _ => false, fun _ => 0, some 0⟩ 180000 2 0 0
    ⟨initialChild 8, [2]⟩ rfl rfl

/-! ## Shutdown registry -/

/-- The group SIGTERM is attempted no matter how the syscall answers. -/
theorem killOne_attempts (os : OS) (p : Proc) :
    (killOne os p).attempts = [(-((p.pid : Int)), Signal.term)] := by
  cases h : os.kill (-((p.pid : Int))) Signal.term <;> simp [killOne, h]

/-- C4: one `killSubprocesses` invocation attempts a SIGTERM on the process
group of every (non-falsy) registered entry, whatever each individual
syscall returns — a per-entry failure is caught inside the loop body (at
most logged, and not even logged for `ESRCH`) and does not prevent the
remaining entries from being signalled — and on an empty registry it
performs no signal operation at all. -/
theorem killSubprocesses_signals_all :
    (∀ os ps, (killSubprocesses os ps).attempts =
      (ps.filterMap id).map (fun p => (-((p.pid : Int)), Signal.term)))
    ∧ (∀ os p, os.kill (-((p.pid : Int))) Signal.term = .err "ESRCH" →
        (killOne os p).logged = [])
    ∧ (∀ os, killSubprocesses os [] = ⟨[], [], [], []⟩) := by
  refine ⟨?_, ?_, fun _ => rfl⟩
  · intro os ps
    induction ps with
    | nil => rfl
    | cons hd tl ih =>
      cases hd with
      | none => simpa [killSubprocesses] using ih
      | some p => simp [killSubprocesses, ShutdownEffects.append, killOne_attempts, ih]
  · intro os p h
    simp [killOne, h]

theorem killSubprocesses_signals_all_witness :
    (killOne ⟨fun _ _ => .err "ESRCH"⟩ ⟨5⟩).logged = [] :=
  killSubprocesses_signals_all.2.1 ⟨fun _ _ => .err "ESRCH"⟩ ⟨5⟩ rfl

/-- C5 counterexample: a zero-signal liveness probe that answers `EPERM`
("permission denied") does NOT make the deferred SIGKILL be skipped —
`isProcessAlive` treats `EPERM` as alive, so `killSubprocesses`' timer
dispatches the group SIGKILL anyway. -/
theorem deferredKill_eperm_dispatches :
    (OS.kill ⟨fun _ _ => .err "EPERM"⟩ ((42 : Int)) Signal.zero = .err "EPERM")
    ∧ deferredKill ⟨fun _ _ => .err "EPERM"⟩ 42 = [(-((42 : Int)), Signal.kill)]
    ∧ deferredKill ⟨fun _ _ => .err "EPERM"⟩ 42 ≠ [] := by
  refine ⟨rfl, rfl, by decide⟩

/-- C5 amended: five seconds after a successful group SIGTERM the deferred
SIGKILL is dispatched exactly when the zero-signal probe finds the pid
responsive OR fails with `EPERM` (a pid owned by someone else counts as
alive); it is skipped exactly when the probe fails with any other code
(e.g. `ESRCH`, no such process). -/
theorem deferredKill_guard (os : OS) (pid : Nat) (h : pid ≠ 0) :
    (deferredKill os pid = [(-((pid : Int)), Signal.kill)] ↔
      (os.kill ((pid : Int)) Signal.zero = .ok ∨
       os.kill ((pid : Int)) Signal.zero = .err "EPERM"))
    ∧ (deferredKill os pid = [] ↔
      ∃ c, os.kill ((pid : Int)) Signal.zero = .err c ∧ c ≠ "EPERM") := by
  unfold deferredKill isProcessAlive
  cases hk : os.kill ((pid : Int)) Signal.zero with
  | ok => simp [h]
  | err c =>
    by_cases hc : c = "EPERM" <;> simp [h, hc]

theorem deferredKill_guard_witness :
    deferredKill ⟨fun _ _ => .ok⟩ 5 = [(-((5 : Int)), Signal.kill)] :=
  ((deferredKill_guard ⟨fun _ _ => .ok⟩ 5 (by decide)).1).2 (Or.inl rfl)

/-! ## Configuration rewriting -/

theorem countOcc_append {α : Type} [BEq α] (a : α) (l₁ l₂ : List α) :
    countOcc a (l₁ ++ l₂) = countOcc a l₁ + countOcc a l₂ := by
  simp [countOcc, List.filter_append]

theorem countOcc_cons_ne {α : Type} [BEq α] (a x : α) (l : List α)
    (h : (x == a) = false) : countOcc a (x :: l) = countOcc a l := by
  simp [countOcc, List.filter_cons, h]

/-- A line that contains one of the keys as a substring cannot survive
`_deleteFromFile`. -/
theorem countOcc_deleteLines_eq_zero (keys : List String) (p : String)
    (h : keys.any (fun k => includes p k) = true) (L : List String) :
    countOcc p (deleteLines keys L) = 0 := by
  induction L with
  | nil => rfl
  | cons x xs ih =>
    simp only [deleteLines, List.filter_cons] at ih ⊢
    by_cases hkeep : (!(keys.any (fun k => includes x k))) = true
    · rw [if_pos hkeep]
      have hxp : (x == p) = false := by
        by_cases hx : x = p
        · subst hx
          rw [h] at hkeep
          cases hkeep
        · exact beq_eq_false_iff_ne.2 hx
      rw [countOcc_cons_ne _ _ _ hxp]
      exact ih
    · rw [if_neg hkeep]
      exact ih

/-- C6 is false for `configureOpenSearch`: its removal set does not contain
`http.port` (nor the `plugins.security.*` keys), so running the transform
twice on an initially empty `opensearch.yml` leaves the appended
`http.port : 9200` line present twice, not once. -/
theorem configureOpenSearch_not_idempotent :
    countOcc "http.port: 9200"
      (configureOpenSearchFile osOptsPlain certs0
        (configureOpenSearchFile osOptsPlain certs0 [])) = 2 ∧ (2 : Nat) ≠ 1 := by
  refine ⟨by decide, by decide⟩

/-- Second application of the dashboards transform: the deleted prefix
contributes no copy of an appended parameter, so each such parameter occurs
exactly as often as in one fresh append. -/
theorem configureDashboards_count_aux (lines : List String) (p : String)
    (hkey : (dashboardsLinesToDelete dOpts0).any (fun k => includes p k) = true)
    (hcnt : countOcc p ("" :: dashboardsConfigParams dOpts0) = 1) :
    countOcc p (configureDashboardsFile dOpts0 (configureDashboardsFile dOpts0 lines)) = 1 := by
  simp only [configureDashboardsFile, appendLines]
  rw [countOcc_append, countOcc_deleteLines_eq_zero _ _ hkey, hcnt]

/-- C6 amended: the configure transform of `configureDashboards` IS
idempotent — every appended key line contains one of the removed keys, so a
second run removes the previously appended lines before re-appending and
each appended line occurs exactly once, whatever the starting file — but
`configureOpenSearch`'s is not (see `configureOpenSearch_not_idempotent`:
the `http.port` line is appended outside the removal set and duplicates). -/
theorem configureDashboards_idempotent :
    ∀ lines p, p ∈ dashboardsConfigParams dOpts0 →
      countOcc p (configureDashboardsFile dOpts0 (configureDashboardsFile dOpts0 lines)) = 1 := by
  have hall1 : ∀ q ∈ dashboardsConfigParams dOpts0,
      ((dashboardsLinesToDelete dOpts0).any (fun k => includes q k)) = true := by decide
  have hall2 : ∀ q ∈ dashboardsConfigParams dOpts0,
      countOcc q ("" :: dashboardsConfigParams dOpts0) = 1 := by decide
  intro lines p hp
  exact configureDashboards_count_aux lines p (hall1 p hp) (hall2 p hp)

theorem configureDashboards_idempotent_witness :
    countOcc "server.host: 0.0.0.0"
      (configureDashboardsFile dOpts0 (configureDashboardsFile dOpts0 [])) = 1 :=
  configureDashboards_idempotent [] "server.host: 0.0.0.0" (by decide)

/-! ## Download atomicity -/

/-- Along any redirect chain, either the destination file is untouched, or
the run succeeded and the destination holds exactly the fully-written body
(with the `.temp` sibling gone) — a partial write only ever lands in the
`.temp` sibling. -/
theorem download_dest_invariant :
    ∀ outcomes fs, ((download outcomes fs).1.dest = fs.dest) ∨
      ∃ body, download outcomes fs = (⟨some body, none⟩, .ok ()) := by
  intro outcomes
  induction outcomes with
  | nil => intro fs; exact Or.inl rfl
  | cons o rest ih =>
    intro fs
    cases o with
    | connError m => exact Or.inl rfl
    | response code loc w =>
      by_cases h1 : code < 200
      · left
        simp [download, h1]
      · by_cases h2 : 400 ≤ code
        · left
          simp [download, h1, h2]
        · by_cases h3 : 300 < code
          · cases loc with
            | some u =>
              have h4 := ih { fs with temp := none }
              rcases h4 with h4 | ⟨body, h4⟩
              · left
                simpa [download, h1, h2, h3] using h4
              · right
                exact ⟨body, by simpa [download, h1, h2, h3] using h4⟩
            | none =>
              left
              simp [download, h1, h2, h3]
          · cases w with
            | finished body =>
              right
              exact ⟨body, by simp [download, h1, h2, h3]⟩
            | errored written m =>
              left
              simp [download, h1, h2, h3]

/-- C7: if `_download` fails at any point — connection error, rejected
status, redirect without target, or write-stream error — the destination
cache file is left exactly as it was (absent stays absent, previous content
stays unchanged): bytes only ever go to the `.temp` sibling, which is
renamed over the destination only after the stream has fully finished. -/
theorem download_failure_preserves_dest (outcomes : List NetOutcome) (fs : FS)
    (e : String) (h : (download outcomes fs).2 = .error e) :
    (download outcomes fs).1.dest = fs.dest := by
  rcases download_dest_invariant outcomes fs with h1 | ⟨body, h1⟩
  · exact h1
  · rw [h1] at h
    cases h

theorem download_failure_preserves_dest_witness :
    (download [.connError "refused"] ⟨some "old", some "junk"⟩).1.dest = some "old" :=
  download_failure_preserves_dest [.connError "refused"] ⟨some "old", some "junk"⟩
    "refused" rfl

/-! ## Health probes -/

/-- C8 counterexample: the claim says each probe goes over HTTP or HTTPS
according to the security mode, but with security enabled the dashboard
probe is still issued over plain HTTP — `checkDashboardsHealth` hard-codes
the `http://` scheme and only the basic-auth header follows the mode. -/
theorem dashboardsProbe_scheme_counterexample :
    secureHOpts.security = true
    ∧ (dashboardsHealthRequest secureHOpts).scheme = "http"
    ∧ (dashboardsHealthRequest secureHOpts).scheme ≠ "https" := by
  refine ⟨rfl, rfl, by decide⟩

/-- C8 amended: the dashboard probe issues `GET /api/status` always over
plain HTTP (only its basic-auth header follows the security mode) and is
healthy exactly when `status.overall.state == "green"`; the search-engine
probe issues `GET /_cluster/health` over HTTPS when security is on and HTTP
otherwise, and is healthy exactly when `status ∈ {"green","yellow"}`;
network errors, missing or non-JSON content types, and unparseable bodies
resolve to `undefined`; a non-2xx status resolves to `undefined` only on
the secure search-engine path (non-200 rejection) — the dashboard and plain
search-engine probes never examine the status code. -/
theorem health_probe_contract :
    (∀ o, (dashboardsHealthRequest o).scheme = "http"
      ∧ (dashboardsHealthRequest o).urlPath = "/api/status"
      ∧ (dashboardsHealthRequest o).auth = o.security)
    ∧ (∀ o, (opensearchHealthRequest o).scheme = (if o.security then "https" else "http")
      ∧ (opensearchHealthRequest o).urlPath = "/_cluster/health")
    ∧ (∀ o net s ct b, net (dashboardsHealthRequest o) = .resp s (some ct) (some b) →
        includes ct "application/json" = true →
        checkDashboardsHealth o net = some (b.overallState == some "green"))
    ∧ (∀ o net s ct b, o.security = false →
        net (opensearchHealthRequest o) = .resp s (some ct) (some b) →
        includes ct "application/json" = true →
        checkOpenSearchHealth o net = some (clusterHealthy b))
    ∧ (∀ o net ct b, o.security = true →
        net (opensearchHealthRequest o) = .resp 200 (some ct) (some b) →
        includes ct "application/json" = true →
        checkOpenSearchHealth o net = some (clusterHealthy b))
    ∧ (∀ o net s ct b, o.security = true → s ≠ 200 →
        net (opensearchHealthRequest o) = .resp s ct b →
        checkOpenSearchHealth o net = none)
    ∧ (∀ o net, net (dashboardsHealthRequest o) = .connErr →
        checkDashboardsHealth o net = none)
    ∧ (∀ o net s ct b, net (dashboardsHealthRequest o) = .resp s (some ct) (some b) →
        includes ct "application/json" = false →
        checkDashboardsHealth o net = none) := by
  refine ⟨?_, ?_, ?_, ?_, ?_, ?_, ?_, ?_⟩
  · intro o
    exact ⟨rfl, rfl, rfl⟩
  · intro o
    by_cases h : o.security <;> simp [opensearchHealthRequest, h]
  · intro o net s ct b h hj
    simp [checkDashboardsHealth, h, hj]
  · intro o net s ct b hsec h hj
    simp [checkOpenSearchHealth, hsec, h, hj]
  · intro o net ct b hsec h hj
    simp [checkOpenSearchHealth, hsec, h, hj]
  · intro o net s ct b hsec hs h
    simp [checkOpenSearchHealth, hsec, h, hs]
  · intro o net h
    simp [checkDashboardsHealth, h]
  · intro o net s ct b h hj
    simp [checkDashboardsHealth, h, hj]

theorem health_probe_contract_witness :
    checkDashboardsHealth secureHOpts greenNet = some true := by
  have h := health_probe_contract.2.2.1 secureHOpts greenNet 200 "application/json"
    ⟨some "green", some "green"⟩ rfl (by decide)
  simpa using h

/-! ## Plugin source resolution -/

/-- C9 counterexample: a single-segment requested source — an owner with no
repository and no branch — does NOT fail: `getSource` returns the official
source for the slug (with its default branch), silently discarding the
requested owner. -/
theorem getSource_single_segment_counterexample :
    getSource testProjects "maps" (some "someowner") none =
      .ok ⟨"opensearch-project", "maps-dashboards", "main"⟩
    ∧ ∀ e, getSource testProjects "maps" (some "someowner") none ≠ .error e := by
  refine ⟨rfl, fun e h => ?_⟩
  rw [show getSource testProjects "maps" (some "someowner") none =
      .ok ⟨"opensearch-project", "maps-dashboards", "main"⟩ from rfl] at h
  cases h

/-- C9 amended: a full three-part requested reference is used verbatim; a
single-segment reference (an owner alone) resolves — without failing — to
the official source of the slug with its own default branch, the requested
owner being discarded. -/
theorem getSource_resolution :
    (∀ ps slug req ob u r b,
      (lookupProject ps slug).isSome = true →
      jsSplit '/' (stripGithubAny (jsTrim req)) = [u, r, b] →
      u ≠ "" → r ≠ "" → b ≠ "" →
      getSource ps slug (some req) ob = .ok ⟨u, r, b⟩)
    ∧ (∀ ps slug req ob u,
      (lookupProject ps slug).isSome = true →
      jsSplit '/' (stripGithubAny (jsTrim req)) = [u] →
      u ≠ "" →
      getSource ps slug (some req) ob = getOfficialSource ps slug none) := by
  constructor
  · intro ps slug req ob u r b hl hsplit hu hr hb
    cases hproj : lookupProject ps slug with
    | none => rw [hproj] at hl; cases hl
    | some p =>
      have hs : stripGithubAny (jsTrim req) ≠ "" := by
        intro he
        rw [he] at hsplit
        cases hsplit
      simp [getSource, hproj, hsplit, partTruthy, hs, hu, hr, hb]
  · intro ps slug req ob u hl hsplit hu
    cases hproj : lookupProject ps slug with
    | none => rw [hproj] at hl; cases hl
    | some p =>
      have hs : stripGithubAny (jsTrim req) ≠ "" := by
        intro he
        rw [he] at hsplit
        cases hsplit
        exact hu rfl
      simp [getSource, hproj, hsplit, partTruthy, hs, hu]

theorem getSource_resolution_witness :
    getSource testProjects "maps" (some "github:u/r/br") none = .ok ⟨"u", "r", "br"⟩ :=
  getSource_resolution.1 testProjects "maps" "github:u/r/br" none "u" "r" "br"
    rfl rfl (by decide) (by decide) (by decide)

/-! ## Version gate for OpenSearch provisioning -/

/-- C10: the search engine can only be provisioned from a released
three-part version: for any `opensearchVersion` that does not match
`\d+.\d+.\d+` (including an absent one) `prepareOpenSearch` returns
`undefined` and performs no download, unarchive or configure action, and the
`--opensearch-version` argument parser rejects every value whose trimmed
form is not a full three-part version. -/
theorem prepareOpenSearch_requires_version :
    (∀ unarchiveOk v destination, isVersionOpt v = false →
      prepareOpenSearch unarchiveOk v destination = (.ok none, []))
    ∧ (∀ s, isVersion (jsTrim s) = false →
        fullVersion s = .error "The value needs to be a complete version (e.g. 2.15.0).")
    ∧ isVersionOpt none = false := by
  refine ⟨?_, ?_, rfl⟩
  · intro unarchiveOk v destination h
    cases v with
    | none => rfl
    | some s =>
      simp only [isVersionOpt] at h
      simp [prepareOpenSearch, h]
  · intro s h
    simp [fullVersion, h]

theorem prepareOpenSearch_requires_version_witness :
    prepareOpenSearch true (some "github://2.x") "/deploy" = (.ok none, []) :=
  prepareOpenSearch_requires_version.1 true (some "github://2.x") "/deploy" (by decide)

end OsdLauncher
